import Mathlib

/-!
Verification of the WebGPU examples repository.

The repository is a collection of self-contained WebGPU demo scripts.  Each
demo acquires a device (`initWebGPU`), builds pipelines (`initPipeline`),
allocates GPU resources, and encodes per-frame command sequences.  We embed
each demo's GPU-facing behaviour as a list of commands (`GCmd`), transcribed
from the source, and embed the two fragment shaders relevant to the claims
as pure functions over ℚ.

Mesh geometry (stanfordDragon, util/box, util/sphere, meshes/cube) is not
part of the sources, so mesh-derived counts (index counts, vertex counts)
are abstracted as parameters in a `MeshSizes` record; no claim depends on
their values.
-/

/-- One GPU-facing action of a demo script, as issued to the WebGPU API.
Transcribed from the TypeScript sources; resource-creation commands carry
the source variable name of the created object. -/
inductive GCmd where
  | createShaderModule (name : String)
  | createRenderPipeline (name : String)
  | createComputePipeline (name : String)
  | createBuffer (name : String)
  | createTexture (name : String)
  | createSampler (name : String)
  | createBindGroup (name : String)
  | destroyTexture (name : String)
  | configureContext
  | writeBuffer (buf : String) (offset : Nat)
  | copyToTexture (tex : String)
  | beginRenderPass (pass : String)
  | beginComputePass
  | setPipeline (p : String)
  | setBindGroup (slot : Nat) (g : String)
  | setVertexBuffer (slot : Nat) (b : String)
  | setIndexBuffer (b : String)
  | draw (vertexCount instanceCount : Nat)
  | drawIndexed (indexCount instanceCount : Nat)
  | dispatchWorkgroups (n : Nat)
  | endPass
  | submit (buffers : Nat)
  | requestFrame
  deriving DecidableEq, Repr

/-- Mesh-derived sizes that come from data files outside the sources
(stanford dragon index count, box/sphere index counts, cube vertex count). -/
structure MeshSizes where
  dragonIndexCount : Nat
  boxIndexCount : Nat
  sphereIndexCount : Nat
  cubeVertexCount : Nat
  deriving DecidableEq, Repr

/-- Is the command a draw call (`draw` or `drawIndexed`)? -/
def GCmd.isDraw : GCmd → Bool
  | .draw _ _ => true
  | .drawIndexed _ _ => true
  | _ => false

/-- Is the command a queue submit? -/
def GCmd.isSubmit : GCmd → Bool
  | .submit _ => true
  | _ => false

/-- Is the command the creation of a render or compute pipeline? -/
def GCmd.isPipelineCreation : GCmd → Bool
  | .createRenderPipeline _ => true
  | .createComputePipeline _ => true
  | _ => false

/-- Is the command the creation of a shader module? -/
def GCmd.isShaderModuleCreation : GCmd → Bool
  | .createShaderModule _ => true
  | _ => false

/-- Is the command the creation of a GPU object of one of the four classes
named by the spec (buffer, texture, pipeline, bind group)? -/
def GCmd.isResourceCreation : GCmd → Bool
  | .createBuffer _ => true
  | .createTexture _ => true
  | .createRenderPipeline _ => true
  | .createComputePipeline _ => true
  | .createBindGroup _ => true
  | _ => false

/-- Is the command the destruction of a GPU resource? -/
def GCmd.isDestroy : GCmd → Bool
  | .destroyTexture _ => true
  | _ => false

/-- Number of draw calls in a command list. -/
def countDraws (l : List GCmd) : Nat := (l.filter GCmd.isDraw).length

/-- Number of queue submits in a command list. -/
def countSubmits (l : List GCmd) : Nat := (l.filter GCmd.isSubmit).length

/-- The names of the pipelines created by a command list, in order. -/
def pipelinesCreated : List GCmd → List String
  | [] => []
  | .createRenderPipeline n :: l => n :: pipelinesCreated l
  | .createComputePipeline n :: l => n :: pipelinesCreated l
  | _ :: l => pipelinesCreated l

/-- The resource-creation commands of a command list. -/
def creationsOf (l : List GCmd) : List GCmd := l.filter GCmd.isResourceCreation

/-- The destruction commands of a command list. -/
def destroysOf (l : List GCmd) : List GCmd := l.filter GCmd.isDestroy

/-- One entry of the pass structure of a frame: a render pass (with its
descriptor name), or a compute pass. -/
inductive PassKind where
  | render (pass : String)
  | compute
  deriving DecidableEq, Repr

/-- The sequence of passes begun by a command list, in order. -/
def passSeq : List GCmd → List PassKind
  | [] => []
  | .beginRenderPass p :: l => .render p :: passSeq l
  | .beginComputePass :: l => .compute :: passSeq l
  | _ :: l => passSeq l

/-- The sequence of `setPipeline` targets of a command list, in order. -/
def pipelineSeq : List GCmd → List String
  | [] => []
  | .setPipeline p :: l => p :: pipelineSeq l
  | _ :: l => pipelineSeq l

/-- The sequence of workgroup counts dispatched by a command list. -/
def dispatchSeq : List GCmd → List Nat
  | [] => []
  | .dispatchWorkgroups n :: l => n :: dispatchSeq l
  | _ :: l => dispatchSeq l

/-- The sequence of submits (number of command buffers each) of a list. -/
def submitSeq : List GCmd → List Nat
  | [] => []
  | .submit n :: l => n :: submitSeq l
  | _ :: l => submitSeq l

/-! ### Shared initialization shape

Every demo's `initWebGPU` has the same structure: throw
`"Not Support WebGPU"` when `navigator.gpu` is absent, request an adapter
and throw `"No Adapter Found"` when none is returned, then request the
device and configure the canvas context.  Every demo's `run` first checks
for the canvas element and throws `"No Canvas"` when it is missing.  The
result is paired with the trace of GPU commands issued up to that point. -/

/-- Model of the common `initWebGPU(canvas)` body. -/
def initWebGPU (hasGPU hasAdapter : Bool) : Except String Unit × List GCmd :=
  if !hasGPU then (.error "Not Support WebGPU", [])
  else if !hasAdapter then (.error "No Adapter Found", [])
  else (.ok (), [.configureContext])

/-- Model of the common `run()` shape: canvas check, then `initWebGPU`,
then the demo's initialization commands (`initCmds`: pipelines, resources,
first draw invocation). -/
def runDemo (hasCanvas hasGPU hasAdapter : Bool) (initCmds : List GCmd) :
    Except String Unit × List GCmd :=
  if !hasCanvas then (.error "No Canvas", [])
  else
    match initWebGPU hasGPU hasAdapter with
    | (.error e, t) => (.error e, t)
    | (.ok _, t) => (.ok (), t ++ initCmds)

/-- Model of `run()` of the canvas-texture demo, which additionally checks
the 2d context of the whiteboard canvas (`"No support 2d"`) between the
canvas check and `initWebGPU`. -/
def runCanvasTextureDemo (hasCanvas has2d hasGPU hasAdapter : Bool)
    (initCmds : List GCmd) : Except String Unit × List GCmd :=
  if !hasCanvas then (.error "No Canvas", [])
  else if !has2d then (.error "No support 2d", [])
  else
    match initWebGPU hasGPU hasAdapter with
    | (.error e, t) => (.error e, t)
    | (.ok _, t) => (.ok (), t ++ initCmds)

/-! ### The deferred-rendering demo (deferredRendering script) -/

namespace Deferred

/-- `kMaxNumLights` of the deferred-rendering script. -/
def kMaxNumLights : Nat := 1024

/-- The workgroup count of the light-update dispatch:
`Math.ceil(kMaxNumLights / 64)`. -/
def lightWorkgroups : Nat := (Int.toNat ⌈(kMaxNumLights : ℚ) / 64⌉)

/-- Commands of `initPipeline`: shader-module and pipeline creations, in
source order.  (`writeGBuffersPipeline`, `gBuffersDebugViewPipeline`,
`deferredRenderingPipeline`, `lightUpdateComputePipeline`.) -/
def initPipelineCmds : List GCmd :=
  [ .createShaderModule "vertexWriteGBuffers",
    .createShaderModule "fragmentWriteGBuffers",
    .createRenderPipeline "writeGBuffersPipeline",
    .createShaderModule "vertexTextureQuad",
    .createShaderModule "fragmentGBuffersDebugView",
    .createRenderPipeline "gBuffersDebugViewPipeline",
    .createShaderModule "vertexTextureQuad",
    .createShaderModule "fragmentDeferredRendering",
    .createRenderPipeline "deferredRenderingPipeline",
    .createShaderModule "lightupdate",
    .createComputePipeline "lightUpdateComputePipeline" ]

/-- Commands of `createResources`, in source order. -/
def createResourcesCmds : List GCmd :=
  [ .createTexture "depthTexture",
    .createBuffer "dragonVertexBuffer",
    .createBuffer "dragonIndexBuffer",
    .createTexture "gBufferTexture2DFloat16",
    .createTexture "gBufferTextureAlbedo",
    .createBindGroup "gBufferTexturesBindGroup",
    .createBuffer "modelUniformBuffer",
    .createBuffer "cameraUniformBuffer",
    .createBindGroup "sceneUniformBindGroup",
    .createBuffer "lightsBuffer",
    .createBuffer "configUniformBuffer",
    .createBuffer "lightExtentBuffer",
    .createBindGroup "lightsBufferBindGroup",
    .createBindGroup "lightsBufferComputeBindGroup" ]

/-- Commands of the body of `draw` outside the `frame` closure: the
light-extent and model-matrix uploads, then the initial
`requestAnimationFrame(frame)`. -/
def drawCmds : List GCmd :=
  [ .writeBuffer "lightExtentBuffer" 0,
    .writeBuffer "modelUniformBuffer" 0,
    .writeBuffer "modelUniformBuffer" 64,
    .requestFrame ]

/-- The per-frame command sequence of the deferred demo, parameterized by
the current `settings.mode` and the mesh sizes.  Transcribed from `frame`:
camera uploads, the G-buffer render pass, the light-update compute pass,
the mode-selected output pass, one submit, and the re-registration. -/
def frame (m : MeshSizes) (mode : String) : List GCmd :=
  [ .writeBuffer "cameraUniformBuffer" 0,
    .writeBuffer "cameraUniformBuffer" 64,
    .beginRenderPass "writeGBufferPassDescriptor",
    .setPipeline "writeGBuffersPipeline",
    .setBindGroup 0 "sceneUniformBindGroup",
    .setVertexBuffer 0 "dragonVertexBuffer",
    .setIndexBuffer "dragonIndexBuffer",
    .drawIndexed m.dragonIndexCount 1,
    .endPass,
    .beginComputePass,
    .setPipeline "lightUpdateComputePipeline",
    .setBindGroup 0 "lightsBufferComputeBindGroup",
    .dispatchWorkgroups lightWorkgroups,
    .endPass ]
  ++ (if mode = "gBuffers view" then
      [ .beginRenderPass "textureQuadPassDescriptor",
        .setPipeline "gBuffersDebugViewPipeline",
        .setBindGroup 0 "gBufferTexturesBindGroup",
        .draw 6 1,
        .endPass ]
    else
      [ .beginRenderPass "textureQuadPassDescriptor",
        .setPipeline "deferredRenderingPipeline",
        .setBindGroup 0 "gBufferTexturesBindGroup",
        .setBindGroup 1 "lightsBufferBindGroup",
        .draw 6 1,
        .endPass ])
  ++ [ .submit 1, .requestFrame ]

/-- Commands of the resize handler: reconfigure the context and re-invoke
`draw`. -/
def resizeCmds : List GCmd := .configureContext :: drawCmds

end Deferred

/-! ### The color-triangle demo (color_triangle script)

Its `draw` encodes and submits one render pass directly; there is no
`frame` closure and no `requestAnimationFrame` anywhere in the script.
Redraws happen only from the color-input listener and the resize
handler. -/

namespace ColorTriangle

/-- Commands of `initPipeline` (which here also creates the color uniform
buffer and its bind group). -/
def initPipelineCmds : List GCmd :=
  [ .createShaderModule "triangle",
    .createShaderModule "colorFrag",
    .createRenderPipeline "pipeline",
    .createBuffer "colorBuffer",
    .writeBuffer "colorBuffer" 0,
    .createBindGroup "uniformGroup" ]

/-- Commands of one invocation of `draw`. -/
def drawCmds : List GCmd :=
  [ .beginRenderPass "renderPassDescriptor",
    .setPipeline "pipeline",
    .setBindGroup 0 "uniformGroup",
    .draw 3 1,
    .endPass,
    .submit 1 ]

/-- Commands of the resize handler: reconfigure, then `draw` again. -/
def resizeCmds : List GCmd := .configureContext :: drawCmds

/-- Commands of the color-input listener: write the new color and `draw`. -/
def colorInputCmds : List GCmd := .writeBuffer "colorBuffer" 0 :: drawCmds

end ColorTriangle

/-! ### The rotating-cube demo (cube.ts, first script) -/

namespace Cube

/-- Commands of `initPipeline`. -/
def initPipelineCmds : List GCmd :=
  [ .createShaderModule "cubeVert",
    .createShaderModule "cubFrag",
    .createRenderPipeline "pipeline" ]

/-- Commands of the body of `draw` outside the `frame` closure: resource
creation, then the initial `requestAnimationFrame(frame)`. -/
def drawCmds : List GCmd :=
  [ .createBuffer "cubeVerticesBuffer",
    .createTexture "depthTexture",
    .createBuffer "uniformBuffer",
    .createBindGroup "uniformBindGroup",
    .requestFrame ]

/-- The per-frame command sequence. -/
def frame (m : MeshSizes) : List GCmd :=
  [ .writeBuffer "uniformBuffer" 0,
    .beginRenderPass "renderPassDescriptor",
    .setPipeline "pipeline",
    .setBindGroup 0 "uniformBindGroup",
    .setVertexBuffer 0 "cubeVerticesBuffer",
    .draw m.cubeVertexCount 1,
    .endPass,
    .submit 1,
    .requestFrame ]

/-- Commands of the resize handler. -/
def resizeCmds : List GCmd := .configureContext :: drawCmds

end Cube

/-! ### The multisample demo (cube.ts, second script)

Like the color triangle it has no `frame` closure and no
`requestAnimationFrame`; each `draw` creates a fresh 4-sample texture and
submits one pass. -/

namespace Multisample

/-- Commands of `initPipeline`. -/
def initPipelineCmds : List GCmd :=
  [ .createShaderModule "triangle",
    .createShaderModule "redFrag",
    .createRenderPipeline "pipeline" ]

/-- Commands of one invocation of `draw`. -/
def drawCmds : List GCmd :=
  [ .createTexture "texture",
    .beginRenderPass "renderPassDescriptor",
    .setPipeline "pipeline",
    .draw 3 1,
    .endPass,
    .submit 1 ]

/-- Commands of the resize handler. -/
def resizeCmds : List GCmd := .configureContext :: drawCmds

end Multisample

/-! ### The shadow-mapping demo (cube.ts, third script; `NUM = 30`) -/

namespace Shadow

/-- Commands of `initPipeline` (two pipelines: shadow depth and render). -/
def initPipelineCmds : List GCmd :=
  [ .createShaderModule "shadowDepth",
    .createRenderPipeline "shadowPipeline",
    .createShaderModule "shadowVertex",
    .createShaderModule "shadowFrag",
    .createRenderPipeline "renderPipeline" ]

/-- Commands of `createResources`, in source order. -/
def createResourcesCmds : List GCmd :=
  [ .createBuffer "boxBuffer.vertex",
    .createBuffer "boxBuffer.index",
    .createBuffer "sphereBuffer.vertex",
    .createBuffer "sphereBuffer.index",
    .writeBuffer "boxBuffer.vertex" 0,
    .writeBuffer "boxBuffer.index" 0,
    .writeBuffer "sphereBuffer.vertex" 0,
    .writeBuffer "sphereBuffer.index" 0,
    .createTexture "shadowDepthTexture",
    .createTexture "renderDepthTexture",
    .createBuffer "modelViewBuffer",
    .createBuffer "cameraProjectionBuffer",
    .createBuffer "lightProjectionBuffer",
    .createBuffer "colorBuffer",
    .createBuffer "lightBuffer",
    .createBindGroup "vsGroup",
    .createSampler "compareSampler",
    .createBindGroup "fsGroup",
    .createBindGroup "shadowGroup" ]

/-- Commands of the body of `draw` outside the `frame` closure. -/
def drawCmds : List GCmd :=
  [ .writeBuffer "colorBuffer" 0,
    .requestFrame ]

/-- The per-frame command sequence: light and model uploads, the shadow
pass (box then spheres), the render pass (box then spheres), one submit. -/
def frame (m : MeshSizes) : List GCmd :=
  [ .writeBuffer "lightProjectionBuffer" 0,
    .writeBuffer "lightBuffer" 0,
    .writeBuffer "modelViewBuffer" 0,
    .beginRenderPass "shadowPassDescriptor",
    .setPipeline "shadowPipeline",
    .setBindGroup 0 "shadowGroup",
    .setVertexBuffer 0 "boxBuffer.vertex",
    .setIndexBuffer "boxBuffer.index",
    .drawIndexed m.boxIndexCount 2,
    .setVertexBuffer 0 "sphereBuffer.vertex",
    .setIndexBuffer "sphereBuffer.index",
    .drawIndexed m.sphereIndexCount 28,
    .endPass,
    .beginRenderPass "renderPassDescriptor",
    .setPipeline "renderPipeline",
    .setBindGroup 0 "vsGroup",
    .setBindGroup 1 "fsGroup",
    .setVertexBuffer 0 "boxBuffer.vertex",
    .setIndexBuffer "boxBuffer.index",
    .drawIndexed m.boxIndexCount 2,
    .setVertexBuffer 0 "sphereBuffer.vertex",
    .setIndexBuffer "sphereBuffer.index",
    .drawIndexed m.sphereIndexCount 28,
    .endPass,
    .submit 1,
    .requestFrame ]

/-- Commands of the resize handler: destroy and recreate the render depth
texture, re-invoke `draw`, then `updateCamera` (a projection upload).
Note: this handler does NOT reconfigure the canvas context. -/
def resizeCmds : List GCmd :=
  [ .destroyTexture "renderDepthTexture",
    .createTexture "renderDepthTexture" ]
  ++ drawCmds
  ++ [ .writeBuffer "cameraProjectionBuffer" 0 ]

end Shadow

/-! ### The base-lighting demo (base_lighting.ts; `NUM = 500`) -/

namespace BaseLighting

/-- Commands of `initPipeline`. -/
def initPipelineCmds : List GCmd :=
  [ .createShaderModule "objVert",
    .createShaderModule "objFrag",
    .createRenderPipeline "pipeline" ]

/-- Commands of `createResources`, in source order. -/
def createResourcesCmds : List GCmd :=
  [ .createTexture "depthTexture",
    .createBuffer "boxBuffer.vertex",
    .createBuffer "boxBuffer.index",
    .createBuffer "sphereBuffer.vertex",
    .createBuffer "sphereBuffer.index",
    .writeBuffer "boxBuffer.vertex" 0,
    .writeBuffer "boxBuffer.index" 0,
    .writeBuffer "sphereBuffer.vertex" 0,
    .writeBuffer "sphereBuffer.index" 0,
    .createBuffer "modelViewBuffer",
    .createBuffer "projectionBuffer",
    .createBuffer "colorBuffer",
    .createBindGroup "vsGroup" ]

/-- Commands of the body of `draw` outside the `frame` closure. -/
def drawCmds : List GCmd :=
  [ .writeBuffer "colorBuffer" 0,
    .writeBuffer "modelViewBuffer" 0,
    .requestFrame ]

/-- The per-frame command sequence: one render pass drawing 250 instanced
boxes and 250 instanced spheres, one submit. -/
def frame (m : MeshSizes) : List GCmd :=
  [ .beginRenderPass "renderPassDescriptor",
    .setPipeline "pipeline",
    .setBindGroup 0 "vsGroup",
    .setVertexBuffer 0 "boxBuffer.vertex",
    .setIndexBuffer "boxBuffer.index",
    .drawIndexed m.boxIndexCount 250,
    .setVertexBuffer 0 "sphereBuffer.vertex",
    .setIndexBuffer "sphereBuffer.index",
    .drawIndexed m.sphereIndexCount 250,
    .endPass,
    .submit 1,
    .requestFrame ]

/-- Commands of the resize handler (reconfigure, `draw`, `updateCamera`). -/
def resizeCmds : List GCmd :=
  .configureContext :: drawCmds ++ [ .writeBuffer "projectionBuffer" 0 ]

end BaseLighting

/-! ### The base-lighting2 demo (base_lighting2 script; `NUM = 500`) -/

namespace BaseLighting2

/-- Commands of `initPipeline`. -/
def initPipelineCmds : List GCmd :=
  [ .createShaderModule "objVert",
    .createShaderModule "objFrag",
    .createRenderPipeline "pipeline" ]

/-- Commands of `createResources`, in source order. -/
def createResourcesCmds : List GCmd :=
  [ .createTexture "depthTexture",
    .createBuffer "boxBuffer.vertex",
    .createBuffer "boxBuffer.index",
    .createBuffer "sphereBuffer.vertex",
    .createBuffer "sphereBuffer.index",
    .writeBuffer "boxBuffer.vertex" 0,
    .writeBuffer "boxBuffer.index" 0,
    .writeBuffer "sphereBuffer.vertex" 0,
    .writeBuffer "sphereBuffer.index" 0,
    .createBuffer "modelViewBuffer",
    .createBuffer "projectionBuffer",
    .createBuffer "colorBuffer",
    .createBindGroup "vsGroup",
    .createBuffer "ambientBuffer",
    .createBuffer "pointLightBuffer",
    .createBindGroup "lightGroup" ]

/-- Commands of the body of `draw` outside the `frame` closure: only the
initial `requestAnimationFrame(frame)` (all uploads are inside `frame`). -/
def drawCmds : List GCmd := [ .requestFrame ]

/-- The per-frame command sequence: light/color/matrix uploads, one render
pass with two instanced indexed draws, one submit. -/
def frame (m : MeshSizes) : List GCmd :=
  [ .writeBuffer "ambientBuffer" 0,
    .writeBuffer "pointLightBuffer" 0,
    .writeBuffer "colorBuffer" 0,
    .writeBuffer "modelViewBuffer" 0,
    .beginRenderPass "renderPassDescriptor",
    .setPipeline "pipeline",
    .setBindGroup 0 "vsGroup",
    .setBindGroup 1 "lightGroup",
    .setVertexBuffer 0 "boxBuffer.vertex",
    .setIndexBuffer "boxBuffer.index",
    .drawIndexed m.boxIndexCount 250,
    .setVertexBuffer 0 "sphereBuffer.vertex",
    .setIndexBuffer "sphereBuffer.index",
    .drawIndexed m.sphereIndexCount 250,
    .endPass,
    .submit 1,
    .requestFrame ]

/-- Commands of the resize handler (reconfigure, `draw`, `updateCamera`). -/
def resizeCmds : List GCmd :=
  .configureContext :: drawCmds ++ [ .writeBuffer "projectionBuffer" 0 ]

end BaseLighting2

/-! ### The two-cubes demo (two_cubes script) -/

namespace TwoCubes

/-- Commands of `initPipeline`. -/
def initPipelineCmds : List GCmd :=
  [ .createShaderModule "cubeVert",
    .createShaderModule "cubFrag",
    .createRenderPipeline "pipeline" ]

/-- Commands of the body of `draw` outside the `frame` closure: resource
creation (one shared uniform buffer, two bind groups at byte offsets 0
and 256), then the initial `requestAnimationFrame(frame)`. -/
def drawCmds : List GCmd :=
  [ .createBuffer "cubeVerticesBuffer",
    .createTexture "depthTexture",
    .createBuffer "uniformBuffer",
    .createBindGroup "uniformBindGroup",
    .createBindGroup "uniformBindGroup2",
    .requestFrame ]

/-- The per-frame command sequence: the two matrix uploads at offsets 0 and
256, one render pass with two draws, one submit. -/
def frame (m : MeshSizes) : List GCmd :=
  [ .writeBuffer "uniformBuffer" 0,
    .writeBuffer "uniformBuffer" 256,
    .beginRenderPass "renderPassDescriptor",
    .setPipeline "pipeline",
    .setVertexBuffer 0 "cubeVerticesBuffer",
    .setBindGroup 0 "uniformBindGroup",
    .draw m.cubeVertexCount 1,
    .setBindGroup 0 "uniformBindGroup2",
    .draw m.cubeVertexCount 1,
    .endPass,
    .submit 1,
    .requestFrame ]

/-- Commands of the resize handler. -/
def resizeCmds : List GCmd := .configureContext :: drawCmds

end TwoCubes

/-! ### The image-texture cube demo (cube_imageTexture script) -/

namespace ImageTextureCube

/-- Commands of `initPipeline`. -/
def initPipelineCmds : List GCmd :=
  [ .createShaderModule "cubeVert",
    .createShaderModule "cubFrag",
    .createRenderPipeline "pipeline" ]

/-- Commands of the body of `draw` outside the `frame` closure; this demo
creates its resources (including the image texture and sampler) inside
`draw` and then calls `frame()` directly. -/
def drawCmds : List GCmd :=
  [ .createBuffer "cubeVerticesBuffer",
    .createTexture "depthTexture",
    .createBuffer "uniformBuffer",
    .createBindGroup "uniformBindGroup",
    .createTexture "texture",
    .copyToTexture "texture",
    .createSampler "sampler",
    .createBindGroup "textureGroup" ]

/-- The per-frame command sequence. -/
def frame (m : MeshSizes) : List GCmd :=
  [ .writeBuffer "uniformBuffer" 0,
    .beginRenderPass "renderPassDescriptor",
    .setPipeline "pipeline",
    .setBindGroup 0 "uniformBindGroup",
    .setBindGroup 1 "textureGroup",
    .setVertexBuffer 0 "cubeVerticesBuffer",
    .draw m.cubeVertexCount 1,
    .endPass,
    .submit 1,
    .requestFrame ]

/-- Commands of the resize handler. -/
def resizeCmds : List GCmd := .configureContext :: drawCmds

end ImageTextureCube

/-! ### The canvas-texture cube demo (cube_canvasTexture.ts) -/

namespace CanvasTextureCube

/-- Commands of `initPipeline`. -/
def initPipelineCmds : List GCmd :=
  [ .createShaderModule "cubeVert",
    .createShaderModule "cubFrag",
    .createRenderPipeline "pipeline" ]

/-- Commands of `createResources`, in source order. -/
def createResourcesCmds : List GCmd :=
  [ .createBuffer "verticesBuffer",
    .createTexture "depthTexture",
    .createBuffer "uniformBuffer",
    .createBindGroup "uniformGroup",
    .createTexture "cavasTexture",
    .createSampler "sampler",
    .createBindGroup "textureGroup" ]

/-- Commands of the body of `draw` outside the `frame` closure: none; it
builds the pass descriptor and calls `frame()` directly. -/
def drawCmds : List GCmd := []

/-- The per-frame command sequence: matrix upload, whiteboard-canvas copy
into the texture, one render pass with one draw, one submit. -/
def frame (m : MeshSizes) : List GCmd :=
  [ .writeBuffer "uniformBuffer" 0,
    .copyToTexture "cavasTexture",
    .beginRenderPass "renderPassDescriptor",
    .setPipeline "pipeline",
    .setBindGroup 0 "uniformGroup",
    .setBindGroup 1 "textureGroup",
    .setVertexBuffer 0 "verticesBuffer",
    .draw m.cubeVertexCount 1,
    .endPass,
    .submit 1,
    .requestFrame ]

/-- Commands of the resize handler. -/
def resizeCmds : List GCmd := .configureContext :: drawCmds

end CanvasTextureCube

/-! ### The sprite-texture cube demo (cube_spriteTexture script) -/

namespace SpriteTextureCube

/-- Commands of `initPipeline`. -/
def initPipelineCmds : List GCmd :=
  [ .createShaderModule "cubeVert",
    .createShaderModule "cubFrag",
    .createRenderPipeline "pipeline" ]

/-- Commands of `createResources`, in source order. -/
def createResourcesCmds : List GCmd :=
  [ .createBuffer "verticesBuffer",
    .createTexture "depthTexture",
    .createBuffer "uniformBuffer",
    .createBindGroup "uniformGroup",
    .createTexture "texture",
    .copyToTexture "texture",
    .createSampler "sampler",
    .createBuffer "uvBuffer",
    .writeBuffer "uvBuffer" 0,
    .createBindGroup "textureGroup" ]

/-- Commands of the body of `draw` outside the `frame` closure: none; it
calls `frame()` directly. -/
def drawCmds : List GCmd := []

/-- The per-frame command sequence, parameterized by the post-increment
frame counter `count`: every 30th frame re-uploads the sprite UV offset,
then the matrix upload, one render pass with one draw, one submit. -/
def frame (m : MeshSizes) (count : Nat) : List GCmd :=
  (if count % 30 = 0 then [ GCmd.writeBuffer "uvBuffer" 0 ] else [])
  ++ [ .writeBuffer "uniformBuffer" 0,
    .beginRenderPass "renderPassDescriptor",
    .setPipeline "pipeline",
    .setBindGroup 0 "uniformGroup",
    .setBindGroup 1 "textureGroup",
    .setVertexBuffer 0 "verticesBuffer",
    .draw m.cubeVertexCount 1,
    .endPass,
    .submit 1,
    .requestFrame ]

/-- Commands of the resize handler. -/
def resizeCmds : List GCmd := .configureContext :: drawCmds

end SpriteTextureCube

/-! ### The instanced-cubes demo (instanced_cubes script; 4×4 = 16
instances) -/

namespace InstancedCubes

/-- Commands of `initPipeline`. -/
def initPipelineCmds : List GCmd :=
  [ .createShaderModule "cubeVert",
    .createShaderModule "cubFrag",
    .createRenderPipeline "pipeline" ]

/-- Commands of the body of `draw` outside the `frame` closure. -/
def drawCmds : List GCmd :=
  [ .createBuffer "cubeVerticesBuffer",
    .createTexture "depthTexture",
    .createBuffer "uniformBuffer",
    .createBindGroup "uniformBindGroup",
    .requestFrame ]

/-- The per-frame command sequence: the matrix-array upload, one render
pass that draws the cube once non-instanced and once with 16 instances,
one submit. -/
def frame (m : MeshSizes) : List GCmd :=
  [ .writeBuffer "uniformBuffer" 0,
    .beginRenderPass "renderPassDescriptor",
    .setPipeline "pipeline",
    .setVertexBuffer 0 "cubeVerticesBuffer",
    .setBindGroup 0 "uniformBindGroup",
    .draw m.cubeVertexCount 1,
    .setBindGroup 0 "uniformBindGroup",
    .draw m.cubeVertexCount 16,
    .endPass,
    .submit 1,
    .requestFrame ]

/-- Commands of the resize handler. -/
def resizeCmds : List GCmd := .configureContext :: drawCmds

end InstancedCubes

/-! ### Byte-level model of the two-cubes shared uniform buffer -/

/-- `device.queue.writeBuffer(buffer, offset, data…)` on a byte-addressed
buffer: bytes `[offset, offset + len)` are replaced by `data`, all other
bytes keep their previous contents. -/
def queueWriteBuffer (buf : Nat → Int) (offset : Nat) (data : Nat → Int)
    (len : Nat) : Nat → Int :=
  fun i => if offset ≤ i ∧ i < offset + len then data (i - offset) else buf i

namespace TwoCubes

/-- `matrixSize = 4 * 16` bytes (one 4×4 float32 matrix). -/
def matrixSize : Nat := 4 * 16

/-- `offset = 256` — the second bind group's buffer offset ("uniform
bindGroup offset must be 256-byte aligned"). -/
def bindOffset : Nat := 256

/-- `uniformBufferSize = offset + matrixSize`. -/
def uniformBufferSize : Nat := bindOffset + matrixSize

/-- Byte `i` lies in the region viewed by `uniformBindGroup`
(offset 0, size `matrixSize`). -/
def inBindGroup1Region (i : Nat) : Prop := i < matrixSize

/-- Byte `i` lies in the region viewed by `uniformBindGroup2`
(offset `bindOffset`, size `matrixSize`). -/
def inBindGroup2Region (i : Nat) : Prop :=
  bindOffset ≤ i ∧ i < bindOffset + matrixSize

/-- The two `writeBuffer` calls of each two-cubes frame: the first cube's
MVP matrix `m1` at byte offset 0, then the second cube's matrix `m2` at
byte offset 256, each `matrixSize` bytes. -/
def frameWrites (buf m1 m2 : Nat → Int) : Nat → Int :=
  queueWriteBuffer (queueWriteBuffer buf 0 m1 matrixSize) bindOffset m2
    matrixSize

end TwoCubes

/-! ### Shader value model

WGSL vectors over exact rationals.  `sqrt` has no exact rational
counterpart, so the functions that use it are parameterized by an
arbitrary interpretation `sq : ℚ → ℚ` of square root; every property we
prove holds for all interpretations, because the code and the
specification apply it to identical arguments. -/

/-- A WGSL `vec3<f32>`, modelled over ℚ. -/
structure Vec3 where
  x : ℚ
  y : ℚ
  z : ℚ
  deriving DecidableEq, Repr

/-- A WGSL `vec4<f32>`, modelled over ℚ. -/
structure Vec4 where
  x : ℚ
  y : ℚ
  z : ℚ
  w : ℚ
  deriving DecidableEq, Repr

/-- WGSL `dot` on `vec3`. -/
def Vec3.dot (a b : Vec3) : ℚ := a.x * b.x + a.y * b.y + a.z * b.z

/-- Componentwise subtraction. -/
def Vec3.sub (a b : Vec3) : Vec3 := ⟨a.x - b.x, a.y - b.y, a.z - b.z⟩

/-- Componentwise addition. -/
def Vec3.add (a b : Vec3) : Vec3 := ⟨a.x + b.x, a.y + b.y, a.z + b.z⟩

/-- Scalar multiplication. -/
def Vec3.smul (c : ℚ) (v : Vec3) : Vec3 := ⟨c * v.x, c * v.y, c * v.z⟩

/-- WGSL `length`, with the square root interpreted by `sq`. -/
def wgslLength (sq : ℚ → ℚ) (v : Vec3) : ℚ := sq (v.dot v)

/-- WGSL `normalize`, with the square root interpreted by `sq`. -/
def wgslNormalize (sq : ℚ → ℚ) (v : Vec3) : Vec3 :=
  Vec3.smul (1 / wgslLength sq v) v

namespace BaseLighting2

/-- The fragment shader of base_lighting2
(`shaders/base_lighting2/base_lighting.frag.wgsl`), transcribed
statement by statement.  `pointLight 0` is the light position vector,
`(pointLight 1).x` the intensity and `(pointLight 1).y` the radius. -/
def fragMain (sq : ℚ → ℚ) (ambientIntensity : ℚ) (pointLight : Fin 2 → Vec4)
    (fragPosition fragNormal : Vec3) (_fragUV : ℚ × ℚ) (fragColor : Vec4) :
    Vec4 :=
  let objectColor : Vec3 := ⟨fragColor.x, fragColor.y, fragColor.z⟩
  if objectColor.x = 1 ∧ objectColor.y = 1 ∧ objectColor.z = 1 then
    ⟨objectColor.x, objectColor.y, objectColor.z, 1⟩
  else
    let ambientLightColor : Vec3 := ⟨1, 1, 1⟩
    let pointLightColor : Vec3 := ⟨1, 1, 1⟩
    let lightResult0 : Vec3 := ⟨0, 0, 0⟩
    let lightResult1 : Vec3 :=
      lightResult0.add (Vec3.smul ambientIntensity ambientLightColor)
    let pointLightPosition : Vec3 :=
      ⟨(pointLight 0).x, (pointLight 0).y, (pointLight 0).z⟩
    let pointLightIntensity : ℚ := (pointLight 1).x
    let pointLightRadius : ℚ := (pointLight 1).y
    let L : Vec3 := pointLightPosition.sub fragPosition
    let distance : ℚ := wgslLength sq L
    let lightResult2 : Vec3 :=
      if distance < pointLightRadius then
        let diffuse : ℚ := max ((wgslNormalize sq L).dot fragNormal) 0
        let distanceFactor : ℚ := (1 - distance / pointLightRadius) ^ 2
        lightResult1.add
          (Vec3.smul (pointLightIntensity * diffuse * distanceFactor)
            pointLightColor)
      else lightResult1
    ⟨objectColor.x * lightResult2.x, objectColor.y * lightResult2.y,
      objectColor.z * lightResult2.z, 1⟩

end BaseLighting2

namespace Deferred

/-- The output of the G-buffer fragment shader. -/
structure GBufferOutput where
  normal : Vec4
  albedo : Vec4
  deriving DecidableEq, Repr

/-- The G-buffer fragment shader (`writeGBuffers.frag.wgsl`), transcribed
statement by statement: `uv = floor(30 * fragUV)`,
`c = 0.2 + 0.5 * ((uv.x + uv.y) - 2 * floor((uv.x + uv.y) / 2))`. -/
def writeGBuffersFragMain (fragNormal : Vec3) (fragUV : ℚ × ℚ) :
    GBufferOutput :=
  let uvx : ℚ := (Int.floor (30 * fragUV.1) : ℤ)
  let uvy : ℚ := (Int.floor (30 * fragUV.2) : ℤ)
  let s : ℚ := uvx + uvy
  let c : ℚ := 0.2 + 0.5 * (s - 2 * (Int.floor (s / 2) : ℤ))
  { normal := ⟨fragNormal.x, fragNormal.y, fragNormal.z, 1⟩,
    albedo := ⟨c, c, c, 1⟩ }

end Deferred

/-! ### Remaining trace helpers -/

/-- The names of the shader modules created by a command list, in order. -/
def shadersCreated : List GCmd → List String
  | [] => []
  | .createShaderModule n :: l => n :: shadersCreated l
  | _ :: l => shadersCreated l

/-- The pass/submit skeleton of a command list: passes (`Sum.inl`) and
submits with their command-buffer counts (`Sum.inr`), in order. -/
def stageSeq : List GCmd → List (PassKind ⊕ Nat)
  | [] => []
  | .beginRenderPass p :: l => Sum.inl (PassKind.render p) :: stageSeq l
  | .beginComputePass :: l => Sum.inl PassKind.compute :: stageSeq l
  | .submit n :: l => Sum.inr n :: stageSeq l
  | _ :: l => stageSeq l

/-! ## Claim theorems -/

/-- C1: every iteration of the deferred demo's frame loop encodes, in
order, (1) the G-buffer write render pass, (2) the light-position update
compute pass dispatched with `ceil(1024/64) = 16` workgroups, (3) exactly
one of the G-buffers debug-view pass or the deferred composite pass,
chosen by `settings.mode`, and (4) a single submit of one command buffer;
no other passes or submits occur in a frame. -/
theorem C1_deferred_frame_four_stages (m : MeshSizes) (mode : String) :
    stageSeq (Deferred.frame m mode) =
      [Sum.inl (PassKind.render "writeGBufferPassDescriptor"),
       Sum.inl PassKind.compute,
       Sum.inl (PassKind.render "textureQuadPassDescriptor"),
       Sum.inr 1] ∧
    dispatchSeq (Deferred.frame m mode) = [Deferred.lightWorkgroups] ∧
    Deferred.lightWorkgroups =
      Int.toNat ⌈(Deferred.kMaxNumLights : ℚ) / 64⌉ ∧
    Deferred.lightWorkgroups = 16 ∧
    pipelineSeq (Deferred.frame m mode) =
      ["writeGBuffersPipeline", "lightUpdateComputePipeline",
        if mode = "gBuffers view" then "gBuffersDebugViewPipeline"
        else "deferredRenderingPipeline"] := by
  have h16 : Deferred.lightWorkgroups = 16 := by
    show Int.toNat ⌈(Deferred.kMaxNumLights : ℚ) / 64⌉ = 16
    rw [show (⌈(Deferred.kMaxNumLights : ℚ) / 64⌉ : ℤ) = 16 by
      norm_num [Deferred.kMaxNumLights]]
    rfl
  refine ⟨?_, ?_, rfl, h16, ?_⟩ <;>
    by_cases h : mode = "gBuffers view" <;>
      simp [Deferred.frame, h, stageSeq, dispatchSeq, pipelineSeq]

/-- C2 counterexample: `initPipeline` of the deferred demo creates four
pipeline objects, not three — the debug-view and composite stages are two
separate render pipelines. -/
theorem C2_cx_deferred_initPipeline_four :
    (pipelinesCreated Deferred.initPipelineCmds).length = 4 := by decide

/-- C2 (amended): `initPipeline` of the deferred demo constructs exactly
four pipelines — the G-buffer write pipeline, the G-buffers debug-view
pipeline, the deferred composite pipeline and the light-position compute
update pipeline — and no others. -/
theorem C2_deferred_initPipeline_pipelines :
    pipelinesCreated Deferred.initPipelineCmds =
      ["writeGBuffersPipeline", "gBuffersDebugViewPipeline",
       "deferredRenderingPipeline", "lightUpdateComputePipeline"] := by
  decide

/-- C3 counterexample: with WebGPU present but no adapter returned,
initialization still throws (`"No Adapter Found"`), so the startup throw
is not equivalent to the browser lacking WebGPU and another failure path
exists. -/
theorem C3_cx_adapter_failure_throws :
    runDemo true true false [] = (.error "No Adapter Found", []) := by
  rfl

/-- C3 (amended): initialization of a demo throws exactly when a required
capability is missing — `"No Canvas"` when the canvas element is absent,
`"Not Support WebGPU"` when `navigator.gpu` is absent, `"No Adapter
Found"` when no adapter is returned, and, for the canvas-texture demo
only, `"No support 2d"` when the whiteboard 2d context is unavailable;
each throw happens before any GPU command is issued (the trace is empty),
and otherwise initialization succeeds with the context configured
followed by the demo's initialization commands. -/
theorem C3_startup_failure_characterization (hg ha : Bool)
    (init : List GCmd) :
    runDemo false hg ha init = (.error "No Canvas", []) ∧
    runDemo true false ha init = (.error "Not Support WebGPU", []) ∧
    runDemo true true false init = (.error "No Adapter Found", []) ∧
    runDemo true true true init = (.ok (), .configureContext :: init) ∧
    runCanvasTextureDemo false hg ha hg init = (.error "No Canvas", []) ∧
    runCanvasTextureDemo true false hg ha init =
      (.error "No support 2d", []) ∧
    runCanvasTextureDemo true true false ha init =
      (.error "Not Support WebGPU", []) ∧
    runCanvasTextureDemo true true true false init =
      (.error "No Adapter Found", []) ∧
    runCanvasTextureDemo true true true true init =
      (.ok (), .configureContext :: init) := by
  cases hg <;> cases ha <;>
    simp [runDemo, runCanvasTextureDemo, initWebGPU]

/-- C4 counterexample: the base-lighting frame encodes two `drawIndexed`
calls and the shadow-mapping frame encodes four, so a frame's command
buffer can contain more than one draw call. -/
theorem C4_cx_multiple_draws_per_frame :
    countDraws (BaseLighting.frame ⟨48, 36, 240, 36⟩) = 2 ∧
    countDraws (Shadow.frame ⟨48, 36, 240, 36⟩) = 4 ∧
    1 < countDraws (BaseLighting.frame ⟨48, 36, 240, 36⟩) := by decide

/-- C4 (amended): every demo submits exactly one command buffer per
encoded frame, but the number of draw calls per frame varies: one in the
cube/texture-cube demos (and per `draw` invocation in the color-triangle
and multisample demos), two in the base-lighting, two-cubes,
instanced-cubes and deferred demos, and four in the shadow demo. -/
theorem C4_one_submit_variable_draws (m : MeshSizes) (mode : String)
    (count : Nat) :
    (countSubmits (Cube.frame m) = 1 ∧ countDraws (Cube.frame m) = 1) ∧
    (countSubmits (CanvasTextureCube.frame m) = 1 ∧
      countDraws (CanvasTextureCube.frame m) = 1) ∧
    (countSubmits (ImageTextureCube.frame m) = 1 ∧
      countDraws (ImageTextureCube.frame m) = 1) ∧
    (countSubmits (SpriteTextureCube.frame m count) = 1 ∧
      countDraws (SpriteTextureCube.frame m count) = 1) ∧
    (countSubmits (BaseLighting.frame m) = 1 ∧
      countDraws (BaseLighting.frame m) = 2) ∧
    (countSubmits (BaseLighting2.frame m) = 1 ∧
      countDraws (BaseLighting2.frame m) = 2) ∧
    (countSubmits (TwoCubes.frame m) = 1 ∧
      countDraws (TwoCubes.frame m) = 2) ∧
    (countSubmits (InstancedCubes.frame m) = 1 ∧
      countDraws (InstancedCubes.frame m) = 2) ∧
    (countSubmits (Deferred.frame m mode) = 1 ∧
      countDraws (Deferred.frame m mode) = 2) ∧
    (countSubmits (Shadow.frame m) = 1 ∧ countDraws (Shadow.frame m) = 4) ∧
    (countSubmits ColorTriangle.drawCmds = 1 ∧
      countDraws ColorTriangle.drawCmds = 1) ∧
    (countSubmits Multisample.drawCmds = 1 ∧
      countDraws Multisample.drawCmds = 1) := by
  by_cases hm : mode = "gBuffers view" <;>
    by_cases hc : count % 30 = 0 <;>
      simp [Cube.frame, CanvasTextureCube.frame, ImageTextureCube.frame,
        SpriteTextureCube.frame, BaseLighting.frame, BaseLighting2.frame,
        TwoCubes.frame, InstancedCubes.frame, Deferred.frame, Shadow.frame,
        ColorTriangle.drawCmds, Multisample.drawCmds, hm, hc,
        countSubmits, countDraws, List.filter, GCmd.isSubmit, GCmd.isDraw]

/-- C5 counterexample: the color-triangle demo (and likewise the
multisample demo) never calls `requestAnimationFrame` anywhere — not in
its pipeline setup, its `draw`, its input listener, or its resize
handler — so its rendering does not repeat on every animation frame. -/
theorem C5_cx_no_animation_loop :
    ColorTriangle.drawCmds.contains .requestFrame = false ∧
    ColorTriangle.initPipelineCmds.contains .requestFrame = false ∧
    ColorTriangle.resizeCmds.contains .requestFrame = false ∧
    ColorTriangle.colorInputCmds.contains .requestFrame = false ∧
    Multisample.drawCmds.contains .requestFrame = false ∧
    Multisample.initPipelineCmds.contains .requestFrame = false ∧
    Multisample.resizeCmds.contains .requestFrame = false := by decide

/-- C5 (amended): every demo except the color-triangle and multisample
demos defines a `frame` callback that submits one command buffer and ends
by re-registering itself via `requestAnimationFrame`; the cube, two-cubes,
instanced-cubes, shadow, base-lighting, base-lighting2 and deferred demos
also start the loop with a `requestAnimationFrame` at the end of `draw`
(the texture-cube demos instead invoke `frame()` directly). -/
theorem C5_frame_loops (m : MeshSizes) (mode : String) (count : Nat) :
    ((Cube.frame m).getLast? = some .requestFrame ∧
      Cube.drawCmds.contains .requestFrame = true) ∧
    ((TwoCubes.frame m).getLast? = some .requestFrame ∧
      TwoCubes.drawCmds.contains .requestFrame = true) ∧
    ((InstancedCubes.frame m).getLast? = some .requestFrame ∧
      InstancedCubes.drawCmds.contains .requestFrame = true) ∧
    ((Shadow.frame m).getLast? = some .requestFrame ∧
      Shadow.drawCmds.contains .requestFrame = true) ∧
    ((BaseLighting.frame m).getLast? = some .requestFrame ∧
      BaseLighting.drawCmds.contains .requestFrame = true) ∧
    ((BaseLighting2.frame m).getLast? = some .requestFrame ∧
      BaseLighting2.drawCmds.contains .requestFrame = true) ∧
    ((Deferred.frame m mode).getLast? = some .requestFrame ∧
      Deferred.drawCmds.contains .requestFrame = true) ∧
    (ImageTextureCube.frame m).getLast? = some .requestFrame ∧
    (CanvasTextureCube.frame m).getLast? = some .requestFrame ∧
    (SpriteTextureCube.frame m count).getLast? = some .requestFrame := by
  by_cases hm : mode = "gBuffers view" <;>
    by_cases hc : count % 30 = 0 <;>
      simp [Cube.frame, TwoCubes.frame, InstancedCubes.frame, Shadow.frame,
        BaseLighting.frame, BaseLighting2.frame, Deferred.frame,
        ImageTextureCube.frame, CanvasTextureCube.frame,
        SpriteTextureCube.frame, hm, hc, Cube.drawCmds, TwoCubes.drawCmds,
        InstancedCubes.drawCmds, Shadow.drawCmds, BaseLighting.drawCmds,
        BaseLighting2.drawCmds, Deferred.drawCmds]

/-- C6 counterexample: the shadow demo's resize handler destroys its
render depth texture and creates a replacement, so GPU resources are not
create-once-use-forever. -/
theorem C6_cx_shadow_resize_destroys_texture :
    Shadow.resizeCmds.contains (.destroyTexture "renderDepthTexture")
      = true ∧
    Shadow.resizeCmds.contains (.createTexture "renderDepthTexture")
      = true := by decide

/-- C6 (amended): no frame loop ever creates or destroys a GPU resource,
and the only destruction anywhere is the shadow demo's resize handler
destroying (and recreating) its render depth texture; however, the demos
that allocate resources inside `draw` (cube, multisample, two-cubes,
image-texture cube, instanced-cubes) create fresh buffers/textures each
time the resize handler re-invokes `draw`. -/
theorem C6_resource_lifecycle (m : MeshSizes) (mode : String)
    (count : Nat) :
    (creationsOf (Cube.frame m) = [] ∧
     creationsOf (TwoCubes.frame m) = [] ∧
     creationsOf (InstancedCubes.frame m) = [] ∧
     creationsOf (Shadow.frame m) = [] ∧
     creationsOf (BaseLighting.frame m) = [] ∧
     creationsOf (BaseLighting2.frame m) = [] ∧
     creationsOf (ImageTextureCube.frame m) = [] ∧
     creationsOf (CanvasTextureCube.frame m) = [] ∧
     creationsOf (SpriteTextureCube.frame m count) = [] ∧
     creationsOf (Deferred.frame m mode) = []) ∧
    (destroysOf (Cube.frame m) = [] ∧
     destroysOf (TwoCubes.frame m) = [] ∧
     destroysOf (InstancedCubes.frame m) = [] ∧
     destroysOf (Shadow.frame m) = [] ∧
     destroysOf (BaseLighting.frame m) = [] ∧
     destroysOf (BaseLighting2.frame m) = [] ∧
     destroysOf (ImageTextureCube.frame m) = [] ∧
     destroysOf (CanvasTextureCube.frame m) = [] ∧
     destroysOf (SpriteTextureCube.frame m count) = [] ∧
     destroysOf (Deferred.frame m mode) = []) ∧
    (destroysOf Shadow.resizeCmds =
       [.destroyTexture "renderDepthTexture"] ∧
     destroysOf Cube.resizeCmds = [] ∧
     destroysOf Multisample.resizeCmds = [] ∧
     destroysOf TwoCubes.resizeCmds = [] ∧
     destroysOf ImageTextureCube.resizeCmds = [] ∧
     destroysOf CanvasTextureCube.resizeCmds = [] ∧
     destroysOf SpriteTextureCube.resizeCmds = [] ∧
     destroysOf InstancedCubes.resizeCmds = [] ∧
     destroysOf BaseLighting.resizeCmds = [] ∧
     destroysOf BaseLighting2.resizeCmds = [] ∧
     destroysOf ColorTriangle.resizeCmds = [] ∧
     destroysOf Deferred.resizeCmds = []) ∧
    (creationsOf Cube.resizeCmds =
       [.createBuffer "cubeVerticesBuffer", .createTexture "depthTexture",
        .createBuffer "uniformBuffer", .createBindGroup "uniformBindGroup"] ∧
     creationsOf Multisample.resizeCmds = [.createTexture "texture"] ∧
     creationsOf TwoCubes.resizeCmds =
       [.createBuffer "cubeVerticesBuffer", .createTexture "depthTexture",
        .createBuffer "uniformBuffer", .createBindGroup "uniformBindGroup",
        .createBindGroup "uniformBindGroup2"] ∧
     creationsOf InstancedCubes.resizeCmds =
       [.createBuffer "cubeVerticesBuffer", .createTexture "depthTexture",
        .createBuffer "uniformBuffer", .createBindGroup "uniformBindGroup"] ∧
     creationsOf ImageTextureCube.resizeCmds =
       [.createBuffer "cubeVerticesBuffer", .createTexture "depthTexture",
        .createBuffer "uniformBuffer", .createBindGroup "uniformBindGroup",
        .createTexture "texture", .createBindGroup "textureGroup"] ∧
     creationsOf CanvasTextureCube.resizeCmds = [] ∧
     creationsOf SpriteTextureCube.resizeCmds = [] ∧
     creationsOf BaseLighting.resizeCmds = [] ∧
     creationsOf BaseLighting2.resizeCmds = [] ∧
     creationsOf ColorTriangle.resizeCmds = [] ∧
     creationsOf Deferred.resizeCmds = []) := by
  refine ⟨?_, ?_, by decide, by decide⟩ <;>
    by_cases hm : mode = "gBuffers view" <;>
      by_cases hc : count % 30 = 0 <;>
        simp [Cube.frame, TwoCubes.frame, InstancedCubes.frame,
          Shadow.frame, BaseLighting.frame, BaseLighting2.frame,
          ImageTextureCube.frame, CanvasTextureCube.frame,
          SpriteTextureCube.frame, Deferred.frame, hm, hc, creationsOf,
          destroysOf, List.filter, GCmd.isResourceCreation, GCmd.isDestroy]

/-- C7 counterexample: the shadow demo's window-resize handler does not
reconfigure the canvas context (it only recreates the depth texture and
re-invokes `draw`), so the resize handler does not reconfigure the
context in every demo. -/
theorem C7_cx_shadow_resize_no_reconfigure :
    Shadow.resizeCmds.contains .configureContext = false := by decide

/-- C7 (amended): in every demo the pipelines are built exactly once,
during initialization (`initPipeline`), and no pipeline or shader module
is ever created in a `draw` body, a frame callback, or a resize handler;
every resize handler re-invokes drawing with the pipeline object
unchanged, and every resize handler except the shadow demo's also
reconfigures the canvas context. -/
theorem C7_pipelines_fixed (m : MeshSizes) (mode : String) (count : Nat) :
    (pipelinesCreated ColorTriangle.initPipelineCmds = ["pipeline"] ∧
     pipelinesCreated Cube.initPipelineCmds = ["pipeline"] ∧
     pipelinesCreated Multisample.initPipelineCmds = ["pipeline"] ∧
     pipelinesCreated Shadow.initPipelineCmds =
       ["shadowPipeline", "renderPipeline"] ∧
     pipelinesCreated BaseLighting.initPipelineCmds = ["pipeline"] ∧
     pipelinesCreated BaseLighting2.initPipelineCmds = ["pipeline"] ∧
     pipelinesCreated TwoCubes.initPipelineCmds = ["pipeline"] ∧
     pipelinesCreated ImageTextureCube.initPipelineCmds = ["pipeline"] ∧
     pipelinesCreated CanvasTextureCube.initPipelineCmds = ["pipeline"] ∧
     pipelinesCreated SpriteTextureCube.initPipelineCmds = ["pipeline"] ∧
     pipelinesCreated InstancedCubes.initPipelineCmds = ["pipeline"] ∧
     pipelinesCreated Deferred.initPipelineCmds =
       ["writeGBuffersPipeline", "gBuffersDebugViewPipeline",
        "deferredRenderingPipeline", "lightUpdateComputePipeline"]) ∧
    (pipelinesCreated (Cube.frame m) = [] ∧
     pipelinesCreated (TwoCubes.frame m) = [] ∧
     pipelinesCreated (InstancedCubes.frame m) = [] ∧
     pipelinesCreated (Shadow.frame m) = [] ∧
     pipelinesCreated (BaseLighting.frame m) = [] ∧
     pipelinesCreated (BaseLighting2.frame m) = [] ∧
     pipelinesCreated (ImageTextureCube.frame m) = [] ∧
     pipelinesCreated (CanvasTextureCube.frame m) = [] ∧
     pipelinesCreated (SpriteTextureCube.frame m count) = [] ∧
     pipelinesCreated (Deferred.frame m mode) = [] ∧
     shadersCreated (Cube.frame m) = [] ∧
     shadersCreated (TwoCubes.frame m) = [] ∧
     shadersCreated (InstancedCubes.frame m) = [] ∧
     shadersCreated (Shadow.frame m) = [] ∧
     shadersCreated (BaseLighting.frame m) = [] ∧
     shadersCreated (BaseLighting2.frame m) = [] ∧
     shadersCreated (ImageTextureCube.frame m) = [] ∧
     shadersCreated (CanvasTextureCube.frame m) = [] ∧
     shadersCreated (SpriteTextureCube.frame m count) = [] ∧
     shadersCreated (Deferred.frame m mode) = []) ∧
    (pipelinesCreated ColorTriangle.drawCmds = [] ∧
     pipelinesCreated Multisample.drawCmds = [] ∧
     pipelinesCreated Cube.drawCmds = [] ∧
     pipelinesCreated TwoCubes.drawCmds = [] ∧
     pipelinesCreated ImageTextureCube.drawCmds = [] ∧
     pipelinesCreated CanvasTextureCube.drawCmds = [] ∧
     pipelinesCreated SpriteTextureCube.drawCmds = [] ∧
     pipelinesCreated InstancedCubes.drawCmds = [] ∧
     pipelinesCreated Shadow.drawCmds = [] ∧
     pipelinesCreated BaseLighting.drawCmds = [] ∧
     pipelinesCreated BaseLighting2.drawCmds = [] ∧
     pipelinesCreated Deferred.drawCmds = [] ∧
     pipelinesCreated ColorTriangle.resizeCmds = [] ∧
     pipelinesCreated Multisample.resizeCmds = [] ∧
     pipelinesCreated Cube.resizeCmds = [] ∧
     pipelinesCreated TwoCubes.resizeCmds = [] ∧
     pipelinesCreated ImageTextureCube.resizeCmds = [] ∧
     pipelinesCreated CanvasTextureCube.resizeCmds = [] ∧
     pipelinesCreated SpriteTextureCube.resizeCmds = [] ∧
     pipelinesCreated InstancedCubes.resizeCmds = [] ∧
     pipelinesCreated Shadow.resizeCmds = [] ∧
     pipelinesCreated BaseLighting.resizeCmds = [] ∧
     pipelinesCreated BaseLighting2.resizeCmds = [] ∧
     pipelinesCreated Deferred.resizeCmds = [] ∧
     shadersCreated ColorTriangle.resizeCmds = [] ∧
     shadersCreated Multisample.resizeCmds = [] ∧
     shadersCreated Cube.resizeCmds = [] ∧
     shadersCreated TwoCubes.resizeCmds = [] ∧
     shadersCreated ImageTextureCube.resizeCmds = [] ∧
     shadersCreated CanvasTextureCube.resizeCmds = [] ∧
     shadersCreated SpriteTextureCube.resizeCmds = [] ∧
     shadersCreated InstancedCubes.resizeCmds = [] ∧
     shadersCreated Shadow.resizeCmds = [] ∧
     shadersCreated BaseLighting.resizeCmds = [] ∧
     shadersCreated BaseLighting2.resizeCmds = [] ∧
     shadersCreated Deferred.resizeCmds = []) ∧
    (ColorTriangle.resizeCmds.contains .configureContext = true ∧
     Multisample.resizeCmds.contains .configureContext = true ∧
     Cube.resizeCmds.contains .configureContext = true ∧
     TwoCubes.resizeCmds.contains .configureContext = true ∧
     ImageTextureCube.resizeCmds.contains .configureContext = true ∧
     CanvasTextureCube.resizeCmds.contains .configureContext = true ∧
     SpriteTextureCube.resizeCmds.contains .configureContext = true ∧
     InstancedCubes.resizeCmds.contains .configureContext = true ∧
     BaseLighting.resizeCmds.contains .configureContext = true ∧
     BaseLighting2.resizeCmds.contains .configureContext = true ∧
     Deferred.resizeCmds.contains .configureContext = true ∧
     Shadow.resizeCmds.contains .configureContext = false) := by
  refine ⟨by decide, ?_, by decide, by decide⟩
  by_cases hm : mode = "gBuffers view" <;>
    by_cases hc : count % 30 = 0 <;>
      simp [Cube.frame, TwoCubes.frame, InstancedCubes.frame, Shadow.frame,
        BaseLighting.frame, BaseLighting2.frame, ImageTextureCube.frame,
        CanvasTextureCube.frame, SpriteTextureCube.frame, Deferred.frame,
        hm, hc, pipelinesCreated, shadersCreated]

/-- For an integer `x` viewed in ℚ, the WGSL checkerboard expression
`x - 2 * floor(x / 2)` equals the nonnegative remainder `x % 2`. -/
theorem intCast_sub_two_mul_floor_half (x : ℤ) :
    (x : ℚ) - 2 * ((Int.floor ((x : ℚ) / 2) : ℤ) : ℚ) = ((x % 2 : ℤ) : ℚ) := by
  rcases Int.even_or_odd x with ⟨k, hk⟩ | ⟨k, hk⟩ <;> subst hk
  · have h2 : ((k + k : ℤ) : ℚ) / 2 = (k : ℚ) := by push_cast; ring
    rw [h2, Int.floor_intCast]
    have hm : (k + k) % 2 = 0 := by omega
    rw [hm]
    push_cast
    ring
  · have h2 : ((2 * k + 1 : ℤ) : ℚ) / 2 = (k : ℚ) + 1 / 2 := by
      push_cast; ring
    have hfl : Int.floor ((k : ℚ) + 1 / 2) = k := by
      rw [add_comm, Int.floor_add_int]
      norm_num
    rw [h2, hfl]
    have hm : (2 * k + 1) % 2 = 1 := by omega
    rw [hm]
    push_cast
    ring

/-- C9: the G-buffer fragment shader outputs the normal unchanged as
`(fragNormal, 1)`, and a grayscale checkerboard albedo whose R, G and B
components each equal `0.2 + 0.5 * p` where `p` is the parity (0 or 1) of
`floor(30u) + floor(30v)` — hence each component is 0.2 or 0.7 — with
alpha 1. -/
theorem C9_gbuffer_checkerboard (n : Vec3) (u v : ℚ) :
    (Deferred.writeGBuffersFragMain n (u, v)).normal = ⟨n.x, n.y, n.z, 1⟩ ∧
    (Deferred.writeGBuffersFragMain n (u, v)).albedo =
      ⟨0.2 + 0.5 * (((Int.floor (30 * u) + Int.floor (30 * v)) % 2 : ℤ) : ℚ),
       0.2 + 0.5 * (((Int.floor (30 * u) + Int.floor (30 * v)) % 2 : ℤ) : ℚ),
       0.2 + 0.5 * (((Int.floor (30 * u) + Int.floor (30 * v)) % 2 : ℤ) : ℚ),
       1⟩ ∧
    ((Deferred.writeGBuffersFragMain n (u, v)).albedo.x = 0.2 ∨
     (Deferred.writeGBuffersFragMain n (u, v)).albedo.x = 0.7) := by
  have hsum : ((Int.floor (30 * u) : ℚ) + (Int.floor (30 * v) : ℚ)) =
      ((Int.floor (30 * u) + Int.floor (30 * v) : ℤ) : ℚ) := by
    push_cast
    ring
  have halb : (Deferred.writeGBuffersFragMain n (u, v)).albedo =
      ⟨0.2 + 0.5 *
          (((Int.floor (30 * u) + Int.floor (30 * v)) % 2 : ℤ) : ℚ),
       0.2 + 0.5 *
          (((Int.floor (30 * u) + Int.floor (30 * v)) % 2 : ℤ) : ℚ),
       0.2 + 0.5 *
          (((Int.floor (30 * u) + Int.floor (30 * v)) % 2 : ℤ) : ℚ),
       1⟩ := by
    simp only [Deferred.writeGBuffersFragMain, hsum,
      intCast_sub_two_mul_floor_half]
  refine ⟨rfl, halb, ?_⟩
  rw [halb]
  rcases Int.emod_two_eq (Int.floor (30 * u) + Int.floor (30 * v)) with h | h <;>
    rw [show (Deferred.GBufferOutput.mk ⟨n.x, n.y, n.z, 1⟩ _).albedo.x =
        0.2 + 0.5 *
          (((Int.floor (30 * u) + Int.floor (30 * v)) % 2 : ℤ) : ℚ)
      from rfl, h] <;>
    norm_num

/-- C8: for every fragment, the base_lighting2 fragment shader returns
alpha exactly 1; when the object color is exactly (1,1,1) it returns
(1,1,1,1), bypassing all lighting; otherwise its RGB equals
`objectColor * (ambientIntensity + D)` where the point-light diffuse term
`D` is included iff the fragment-to-light distance is strictly less than
the light radius, and
`D = intensity * max(dot(normalize L, normal), 0) * (1 - distance/radius)²`. -/
theorem C8_base_lighting2_fragment (sq : ℚ → ℚ) (ambient : ℚ)
    (pl : Fin 2 → Vec4) (pos n : Vec3) (uv : ℚ × ℚ) (c : Vec4) :
    (BaseLighting2.fragMain sq ambient pl pos n uv c).w = 1 ∧
    BaseLighting2.fragMain sq ambient pl pos n uv c =
      (if c.x = 1 ∧ c.y = 1 ∧ c.z = 1 then (⟨1, 1, 1, 1⟩ : Vec4)
       else
         let L := Vec3.sub ⟨(pl 0).x, (pl 0).y, (pl 0).z⟩ pos
         let distance := wgslLength sq L
         let D : ℚ :=
           if distance < (pl 1).y then
             (pl 1).x * max ((wgslNormalize sq L).dot n) 0 *
               (1 - distance / (pl 1).y) ^ 2
           else 0
         ⟨c.x * (ambient + D), c.y * (ambient + D), c.z * (ambient + D),
           1⟩) := by
  have key : BaseLighting2.fragMain sq ambient pl pos n uv c =
      (if c.x = 1 ∧ c.y = 1 ∧ c.z = 1 then (⟨1, 1, 1, 1⟩ : Vec4)
       else
         let L := Vec3.sub ⟨(pl 0).x, (pl 0).y, (pl 0).z⟩ pos
         let distance := wgslLength sq L
         let D : ℚ :=
           if distance < (pl 1).y then
             (pl 1).x * max ((wgslNormalize sq L).dot n) 0 *
               (1 - distance / (pl 1).y) ^ 2
           else 0
         ⟨c.x * (ambient + D), c.y * (ambient + D), c.z * (ambient + D),
           1⟩) := by
    simp only [BaseLighting2.fragMain, Vec3.add, Vec3.smul]
    by_cases h : c.x = 1 ∧ c.y = 1 ∧ c.z = 1
    · obtain ⟨h1, h2, h3⟩ := h
      simp [h1, h2, h3]
    · rw [if_neg h, if_neg h]
      by_cases hd :
          wgslLength sq (Vec3.sub ⟨(pl 0).x, (pl 0).y, (pl 0).z⟩ pos) <
            (pl 1).y
      · rw [if_pos hd, if_pos hd]
        dsimp only
        congr 1 <;> ring
      · rw [if_neg hd, if_neg hd]
        dsimp only
        congr 1 <;> ring
  refine ⟨?_, key⟩
  rw [key]
  by_cases h : c.x = 1 ∧ c.y = 1 ∧ c.z = 1
  · rw [if_pos h]
  · rw [if_neg h]

/-- C10: the two bind groups of the two-cubes demo view disjoint 64-byte
regions of the one 320-byte uniform buffer (offsets 0 and 256), and each
frame's two writes place the first cube's MVP matrix exactly on bytes
[0,64) and the second cube's exactly on [256,320); every byte outside a
write's target range keeps its previous value, so each write leaves the
other cube's bound region unchanged. -/
theorem C10_two_cubes_disjoint_uniform_regions (buf m1 m2 : Nat → Int)
    (i : Nat) :
    TwoCubes.matrixSize = 64 ∧
    TwoCubes.bindOffset = 256 ∧
    TwoCubes.uniformBufferSize = 320 ∧
    TwoCubes.matrixSize ≤ TwoCubes.bindOffset ∧
    (TwoCubes.frameWrites buf m1 m2 i =
      if TwoCubes.bindOffset ≤ i ∧
          i < TwoCubes.bindOffset + TwoCubes.matrixSize
      then m2 (i - TwoCubes.bindOffset)
      else if i < TwoCubes.matrixSize then m1 i else buf i) ∧
    (queueWriteBuffer buf 0 m1 TwoCubes.matrixSize i =
      if i < TwoCubes.matrixSize then m1 i else buf i) ∧
    (queueWriteBuffer buf TwoCubes.bindOffset m2 TwoCubes.matrixSize i =
      if TwoCubes.bindOffset ≤ i ∧
          i < TwoCubes.bindOffset + TwoCubes.matrixSize
      then m2 (i - TwoCubes.bindOffset) else buf i) := by
  refine ⟨rfl, rfl, rfl, by norm_num [TwoCubes.matrixSize,
    TwoCubes.bindOffset], ?_, ?_, ?_⟩ <;>
    simp only [TwoCubes.frameWrites, queueWriteBuffer,
      TwoCubes.matrixSize, TwoCubes.bindOffset] <;>
    split_ifs <;>
    first
      | rfl
      | (exfalso; omega)
